import Mathlib

/-!
Shallow embedding of the rsocket-go frame codec and transport dispatcher
(frame_request_n.go, frame_error.go, frame_cancel.go / cancel.go,
transport.go, client_default.go), together with theorems settling the
spec claims about them.

Bytes are modelled as lists of naturals below 256; Go uint32 values are
naturals with an explicit bound where it matters.
-/

namespace RSocketGo

/-- binary.BigEndian.PutUint32: the four big-endian bytes of a 32-bit value. -/
def putUint32BE (n : Nat) : List Nat :=
  [n / 2 ^ 24 % 256, n / 2 ^ 16 % 256, n / 2 ^ 8 % 256, n % 256]

/-- binary.BigEndian.PutUint16: the two big-endian bytes of a 16-bit value. -/
def putUint16BE (n : Nat) : List Nat :=
  [n / 2 ^ 8 % 256, n % 256]

/-- binary.BigEndian.Uint32: read a 32-bit big-endian value from the first
four bytes of a buffer. (Go panics on a buffer shorter than 4 bytes; frames
built by the constructors below never hit that case, modelled as 0.) -/
def getUint32BE : List Nat → Nat
  | b0 :: b1 :: b2 :: b3 :: _ => ((b0 * 256 + b1) * 256 + b2) * 256 + b3
  | _ => 0

/-- Go error values that the modelled code produces. -/
inductive GoErr where
  | incompleteFrame : GoErr
  | errMsg (s : String) : GoErr
  | wrapped (msg : String) (inner : GoErr) : GoErr
deriving DecidableEq, Repr

/-- var errIncompleteFrame in package framing. -/
def errIncompleteFrame : GoErr := GoErr.incompleteFrame

/-- RSocket frame types (package framing / core). -/
inductive FrameType where
  | Reserved | Setup | Lease | Keepalive
  | RequestResponse | RequestFNF | RequestStream | RequestChannel
  | RequestN | Cancel | Payload | Error
  | MetadataPush | Resume | ResumeOK | Ext
deriving DecidableEq, Repr

/-- Wire code of each frame type. -/
def FrameType.code : FrameType → Nat
  | .Reserved => 0x00
  | .Setup => 0x01
  | .Lease => 0x02
  | .Keepalive => 0x03
  | .RequestResponse => 0x04
  | .RequestFNF => 0x05
  | .RequestStream => 0x06
  | .RequestChannel => 0x07
  | .RequestN => 0x08
  | .Cancel => 0x09
  | .Payload => 0x0A
  | .Error => 0x0B
  | .MetadataPush => 0x0C
  | .Resume => 0x0D
  | .ResumeOK => 0x0E
  | .Ext => 0x3F

/-- A frame header: stream id, frame type, flag bits. -/
structure FrameHeader where
  streamID : Nat
  ftype : FrameType
  flags : Nat
deriving DecidableEq, Repr

/-- Modelled from the spec: core.FrameHeader.WriteTo is not among the
provided sources; the spec fixes a 6-byte header, a 4-byte big-endian
stream id followed by 2 bytes packing (frame type << 10) | flags. -/
def FrameHeader.writeBytes (h : FrameHeader) : List Nat :=
  putUint32BE h.streamID ++ putUint16BE (h.ftype.code * 1024 + h.flags)

/-- Modelled from the spec: core.FrameHeaderLen is not among the provided
sources; the spec fixes the header length at 6 bytes. -/
def FrameHeaderLen : Nat := 6

/-- newFlags folds a list of flag values with bitwise or. -/
def newFlags (flags : List Nat) : Nat :=
  flags.foldl (fun a b => a ||| b) 0

/-! ### REQUEST_N frames (frame_request_n.go) -/

/-- FrameRequestN is the RequestN frame. -/
structure FrameRequestN where
  header : FrameHeader
  body : List Nat
deriving DecidableEq, Repr

/-- FrameRequestN.Validate: error unless the body is exactly 4 bytes. -/
def FrameRequestN.Validate (p : FrameRequestN) : Option GoErr :=
  if p.body.length ≠ 4 then some errIncompleteFrame else none

/-- FrameRequestN.N: the big-endian 32-bit value stored in the body. -/
def FrameRequestN.N (p : FrameRequestN) : Nat :=
  getUint32BE p.body

/-- NewFrameRequestN: builds a RequestN frame with the 4 big-endian bytes
of n as body. -/
def NewFrameRequestN (sid n : Nat) (flags : List Nat) : FrameRequestN :=
  { header := { streamID := sid, ftype := .RequestN, flags := newFlags flags }
    body := putUint32BE n }

/-! ### ERROR frames (frame_error.go) -/

def errCodeLen : Nat := 4
def errDataOff : Nat := errCodeLen
def minErrorFrameLen : Nat := errCodeLen

/-- FrameError is the error frame. -/
structure FrameError where
  header : FrameHeader
  body : List Nat
deriving DecidableEq, Repr

/-- FrameError.Validate: error when the body is shorter than 4 bytes. -/
def FrameError.Validate (p : FrameError) : Option GoErr :=
  if p.body.length < minErrorFrameLen then some errIncompleteFrame else none

/-- FrameError.ErrorCode: the big-endian 32-bit code at the front of the body. -/
def FrameError.ErrorCode (p : FrameError) : Nat :=
  getUint32BE p.body

/-- FrameError.ErrorData: the body bytes after the 4-byte code. -/
def FrameError.ErrorData (p : FrameError) : List Nat :=
  p.body.drop errDataOff

/-- NewFrameError: body is the 4 big-endian code bytes followed by data. -/
def NewFrameError (streamID code : Nat) (data : List Nat) : FrameError :=
  { header := { streamID := streamID, ftype := .Error, flags := 0 }
    body := putUint32BE code ++ data }

/-! ### CANCEL frames (cancel.go and frame_cancel.go) -/

/-- CancelFrame: a cancel frame whose body may be nil (Go nil ByteBuff). -/
structure CancelFrame where
  header : FrameHeader
  body : Option (List Nat)
deriving DecidableEq, Repr

/-- CancelFrame.Validate: error when the body is non-nil and nonempty. -/
def CancelFrame.Validate (f : CancelFrame) : Option GoErr :=
  match f.body with
  | some b => if b.length > 0 then some errIncompleteFrame else none
  | none => none

/-- NewCancelFrame: cancel frame with nil body. -/
def NewCancelFrame (sid : Nat) : CancelFrame :=
  { header := { streamID := sid, ftype := .Cancel, flags := 0 }, body := none }

/-- FrameCancel: the older cancel frame type, same validation. -/
structure FrameCancel where
  header : FrameHeader
  body : Option (List Nat)
deriving DecidableEq, Repr

/-- FrameCancel.Validate: error when the body is non-nil and nonempty. -/
def FrameCancel.Validate (p : FrameCancel) : Option GoErr :=
  match p.body with
  | some b => if b.length > 0 then some errIncompleteFrame else none
  | none => none

/-- NewFrameCancel: cancel frame with a fresh empty (non-nil) body buffer. -/
def NewFrameCancel (sid : Nat) : FrameCancel :=
  { header := { streamID := sid, ftype := .Cancel, flags := 0 }, body := some [] }

/-- CancelFrameSupport: write-side cancel frame, header only. -/
structure CancelFrameSupport where
  header : FrameHeader
deriving DecidableEq, Repr

/-- CancelFrameSupport.WriteTo: writes exactly the header bytes. -/
def CancelFrameSupport.WriteTo (c : CancelFrameSupport) : List Nat :=
  c.header.writeBytes

/-- CancelFrameSupport.Len: the declared length, core.FrameHeaderLen. -/
def CancelFrameSupport.Len (_ : CancelFrameSupport) : Nat :=
  FrameHeaderLen

/-- NewCancelFrameSupport with frame type cancel and zero flags. -/
def NewCancelFrameSupport (id : Nat) : CancelFrameSupport :=
  { header := { streamID := id, ftype := .Cancel, flags := 0 } }

/-! ### Byte-level lemmas -/

theorem putUint32BE_length (n : Nat) : (putUint32BE n).length = 4 := rfl

theorem putUint16BE_length (n : Nat) : (putUint16BE n).length = 2 := rfl

/-- Reading back the four big-endian bytes of a 32-bit value recovers it,
whatever follows in the buffer. -/
theorem getUint32BE_putUint32BE (n : Nat) (rest : List Nat) (h : n < 2 ^ 32) :
    getUint32BE (putUint32BE n ++ rest) = n := by
  simp only [putUint32BE, List.cons_append, List.nil_append, getUint32BE]
  omega

theorem writeBytes_length (h : FrameHeader) : h.writeBytes.length = 6 := by
  simp [FrameHeader.writeBytes, putUint32BE, putUint16BE]

/-! ### Transport dispatcher (transport.go)

A handler field is none when no handler is registered (the Go field is
nil); it is some r when a handler is registered and returns r on the
frame being dispatched (r = none for success, r = some e for failure).
The connection is modelled by the outcome its SetDeadline call would
return. -/

/-- The Transport struct: connection SetDeadline outcome, max lifetime,
last received resume position, and one handler slot per frame type. -/
structure Transport where
  setDeadlineErr : Option GoErr
  maxLifetime : Int
  lastRcvPos : Nat
  hSetup : Option (Option GoErr)
  hResume : Option (Option GoErr)
  hLease : Option (Option GoErr)
  hResumeOK : Option (Option GoErr)
  hFireAndForget : Option (Option GoErr)
  hMetadataPush : Option (Option GoErr)
  hRequestResponse : Option (Option GoErr)
  hRequestStream : Option (Option GoErr)
  hRequestChannel : Option (Option GoErr)
  hPayload : Option (Option GoErr)
  hRequestN : Option (Option GoErr)
  hError : Option (Option GoErr)
  hError0 : Option (Option GoErr)
  hCancel : Option (Option GoErr)
  hKeepalive : Option (Option GoErr)
deriving DecidableEq, Repr

/-- A dispatched frame: its header plus the type-specific values the
dispatcher reads through accessors (SetupFrame.MaxLifetime,
ResumeOKFrame.LastReceivedClientPosition or
KeepaliveFrame.LastReceivedPosition, ErrorFrame.Error). -/
structure DFrame where
  header : FrameHeader
  maxLifetimeF : Int
  lastRecvPosF : Nat
  errorStr : String
deriving DecidableEq, Repr

/-- Result of one DispatchFrame call: updated transport state, returned
error, whether conn.SetDeadline was called, whether the selected
per-type handler was invoked, whether the sid-0 disaster handler ran. -/
structure DispatchResult where
  tp : Transport
  err : Option GoErr
  deadlineSet : Bool
  handlerInvoked : Bool
  disasterInvoked : Bool
deriving DecidableEq, Repr

/-- The tail of DispatchFrame after the type switch: call
conn.SetDeadline, fail on a missing handler, else run the handler and
wrap its error. -/
def afterSwitch (p : Transport) (handler : Option (Option GoErr)) : DispatchResult :=
  match p.setDeadlineErr with
  | some e => { tp := p, err := some e, deadlineSet := true
                handlerInvoked := false, disasterInvoked := false }
  | none =>
    match handler with
    | none =>
      { tp := p, err := some (GoErr.errMsg "missing frame handler")
        deadlineSet := true, handlerInvoked := false, disasterInvoked := false }
    | some res =>
      { tp := p
        err := res.map (GoErr.wrapped "exec frame handler failed")
        deadlineSet := true, handlerInvoked := true, disasterInvoked := false }

/-- Transport.DispatchFrame: the per-type switch, with the early returns
for METADATA_PUSH on a nonzero stream and ERROR on stream 0, then the
deadline update and handler invocation. -/
def Transport.DispatchFrame (p : Transport) (f : DFrame) : DispatchResult :=
  match f.header.ftype with
  | .Setup => afterSwitch { p with maxLifetime := f.maxLifetimeF } p.hSetup
  | .Resume => afterSwitch p p.hResume
  | .ResumeOK => afterSwitch { p with lastRcvPos := f.lastRecvPosF } p.hResumeOK
  | .RequestFNF => afterSwitch p p.hFireAndForget
  | .MetadataPush =>
    if f.header.streamID ≠ 0 then
      { tp := p, err := none, deadlineSet := false
        handlerInvoked := false, disasterInvoked := false }
    else afterSwitch p p.hMetadataPush
  | .RequestResponse => afterSwitch p p.hRequestResponse
  | .RequestStream => afterSwitch p p.hRequestStream
  | .RequestChannel => afterSwitch p p.hRequestChannel
  | .Payload => afterSwitch p p.hPayload
  | .RequestN => afterSwitch p p.hRequestN
  | .Error =>
    if f.header.streamID = 0 then
      { tp := p, err := some (GoErr.errMsg f.errorStr), deadlineSet := false
        handlerInvoked := false, disasterInvoked := p.hError0.isSome }
    else afterSwitch p p.hError
  | .Cancel => afterSwitch p p.hCancel
  | .Keepalive => afterSwitch { p with lastRcvPos := f.lastRecvPosF } p.hKeepalive
  | .Lease => afterSwitch p p.hLease
  | .Reserved => afterSwitch p none
  | .Ext => afterSwitch p none

/-- The handler slot the dispatcher selects for each frame type (no slot
exists for the types absent from the switch). -/
def Transport.handlerFor (p : Transport) : FrameType → Option (Option GoErr)
  | .Setup => p.hSetup
  | .Resume => p.hResume
  | .ResumeOK => p.hResumeOK
  | .RequestFNF => p.hFireAndForget
  | .MetadataPush => p.hMetadataPush
  | .RequestResponse => p.hRequestResponse
  | .RequestStream => p.hRequestStream
  | .RequestChannel => p.hRequestChannel
  | .Payload => p.hPayload
  | .RequestN => p.hRequestN
  | .Error => p.hError
  | .Cancel => p.hCancel
  | .Keepalive => p.hKeepalive
  | .Lease => p.hLease
  | .Reserved => none
  | .Ext => none

/-- Outcome of the Start read loop over a list of incoming frames:
final transport state, the error (if any) that broke the loop, and how
many frames were dispatched before stopping. -/
structure LoopResult where
  tp : Transport
  err : Option GoErr
  dispatched : Nat
deriving DecidableEq, Repr

/-- The read loop of Transport.Start: dispatch frames in order, stop at
the first dispatch error (an exhausted list stands for conn.Read
returning io.EOF, which Start swallows). -/
def readLoop (p : Transport) : List DFrame → LoopResult
  | [] => { tp := p, err := none, dispatched := 0 }
  | f :: rest =>
    let r := p.DispatchFrame f
    match r.err with
    | some e => { tp := r.tp, err := some e, dispatched := 1 }
    | none =>
      let l := readLoop r.tp rest
      { tp := l.tp, err := l.err, dispatched := l.dispatched + 1 }

/-- Result of Transport.Start: the loop outcome, and whether the
deferred Close ran (it always does). -/
structure StartResult where
  loop : LoopResult
  closed : Bool
deriving DecidableEq, Repr

/-- Transport.Start: run the read loop, then the deferred Close. -/
def Transport.Start (p : Transport) (frames : List DFrame) : StartResult :=
  { loop := readLoop p frames, closed := true }

/-- Transport.SetLifetime: ignore a lifetime below 1, else install it. -/
def Transport.SetLifetime (p : Transport) (lifetime : Int) : Transport :=
  if lifetime < 1 then p else { p with maxLifetime := lifetime }

/-! ### Once-guarded close (Transport.Close) -/

/-- The state of the once-guard and the underlying connection: whether
sync.Once has fired and how many times conn.Close has been invoked. -/
structure CloseModel where
  onceDone : Bool
  connCloseCalls : Nat
deriving DecidableEq, Repr

/-- Transport.Close: run conn.Close under the once-guard; e is the error
conn.Close would return. Later calls do nothing and return nil. -/
def transportClose (e : Option GoErr) (s : CloseModel) : CloseModel × Option GoErr :=
  if s.onceDone then (s, none)
  else ({ onceDone := true, connCloseCalls := s.connCloseCalls + 1 }, e)

/-- The state after n successive Transport.Close calls on a fresh transport. -/
def iterClose (e : Option GoErr) : Nat → CloseModel
  | 0 => { onceDone := false, connCloseCalls := 0 }
  | n + 1 => (transportClose e (iterClose e n)).1

theorem iterClose_pos (e : Option GoErr) (n : Nat) (h : 1 ≤ n) :
    iterClose e n = { onceDone := true, connCloseCalls := 1 } := by
  induction n with
  | zero => omega
  | succ m ih =>
    rcases Nat.eq_zero_or_pos m with hm | hm
    · subst hm; rfl
    · simp [iterClose, ih hm, transportClose]

/-! ### Sample values used by witnesses and counterexamples -/

/-- A transport with no handler registered and a healthy connection. -/
def nilTransport : Transport :=
  { setDeadlineErr := none, maxLifetime := 90, lastRcvPos := 0
    hSetup := none, hResume := none, hLease := none, hResumeOK := none
    hFireAndForget := none, hMetadataPush := none, hRequestResponse := none
    hRequestStream := none, hRequestChannel := none, hPayload := none
    hRequestN := none, hError := none, hError0 := none, hCancel := none
    hKeepalive := none }

/-- A transport with every handler registered and succeeding. -/
def fullTransport : Transport :=
  { setDeadlineErr := none, maxLifetime := 90, lastRcvPos := 0
    hSetup := some none, hResume := some none, hLease := some none
    hResumeOK := some none, hFireAndForget := some none
    hMetadataPush := some none, hRequestResponse := some none
    hRequestStream := some none, hRequestChannel := some none
    hPayload := some none, hRequestN := some none, hError := some none
    hError0 := some none, hCancel := some none, hKeepalive := some none }

/-- A KEEPALIVE frame on stream 0. -/
def kaFrame : DFrame :=
  { header := { streamID := 0, ftype := .Keepalive, flags := 0 }
    maxLifetimeF := 0, lastRecvPosF := 42, errorStr := "" }

/-- A METADATA_PUSH frame with nonzero stream id. -/
def mdPushFrame : DFrame :=
  { header := { streamID := 5, ftype := .MetadataPush, flags := 0 }
    maxLifetimeF := 0, lastRecvPosF := 0, errorStr := "" }

/-- A METADATA_PUSH frame with nonzero stream id, distinct sample. -/
def mdPushFrame7 : DFrame :=
  { header := { streamID := 7, ftype := .MetadataPush, flags := 0 }
    maxLifetimeF := 0, lastRecvPosF := 0, errorStr := "" }

/-- A frame of the unknown EXT type carrying the IGNORE flag bit 0x200. -/
def ignoredExtFrame : DFrame :=
  { header := { streamID := 1, ftype := .Ext, flags := 512 }
    maxLifetimeF := 0, lastRecvPosF := 0, errorStr := "" }

/-- An ERROR frame on stream 0. -/
def disasterFrame : DFrame :=
  { header := { streamID := 0, ftype := .Error, flags := 0 }
    maxLifetimeF := 0, lastRecvPosF := 0, errorStr := "conn gone" }

/-! ### Dispatcher helper lemmas -/

theorem afterSwitch_deadlineSet (p : Transport) (h : Option (Option GoErr)) :
    (afterSwitch p h).deadlineSet = true := by
  unfold afterSwitch
  cases p.setDeadlineErr <;> cases h <;> rfl

theorem afterSwitch_missing (p : Transport) :
    (afterSwitch p none).err.isSome = true ∧
    (afterSwitch p none).handlerInvoked = false := by
  unfold afterSwitch
  cases p.setDeadlineErr <;> simp

theorem readLoop_stop (p : Transport) (f : DFrame) (rest : List DFrame)
    (h : (p.DispatchFrame f).err.isSome = true) :
    (readLoop p (f :: rest)).dispatched = 1 := by
  rcases he : (p.DispatchFrame f).err with _ | e
  · rw [he] at h; simp at h
  · simp [readLoop, he]

/-! ### Claims about the REQUEST_N codec -/

/-- Claim C1 counterexample: a REQUEST_N frame whose value has the top
bit set (2 to the 31st) is built by NewFrameRequestN without complaint,
Validate reports no error, and N returns the out-of-31-bit-range value
instead of an error. -/
theorem requestN_topbit_not_rejected :
    (NewFrameRequestN 1 (2 ^ 31) []).Validate = none ∧
    (NewFrameRequestN 1 (2 ^ 31) []).N = 2 ^ 31 := by
  exact ⟨rfl, rfl⟩

/-- Claim C1 (amended): request-n values are handled as full unsigned
32-bit quantities; NewFrameRequestN builds a frame for any 32-bit value
including those with the top bit set, Validate accepts it, and N
returns the stored value unchanged. -/
theorem requestN_topbit_accepted (sid n : Nat) (fl : List Nat)
    (_h1 : 2 ^ 31 ≤ n) (h2 : n < 2 ^ 32) :
    (NewFrameRequestN sid n fl).Validate = none ∧
    (NewFrameRequestN sid n fl).N = n := by
  refine ⟨rfl, ?_⟩
  show getUint32BE (putUint32BE n) = n
  simpa using getUint32BE_putUint32BE n [] h2

/-- Witness for the amended claim C1 at stream 3, value 2147483648. -/
theorem requestN_topbit_accepted_witness :
    (NewFrameRequestN 3 2147483648 []).Validate = none ∧
    (NewFrameRequestN 3 2147483648 []).N = 2147483648 :=
  requestN_topbit_accepted 3 2147483648 [] (by decide) (by decide)

/-- Claim C6: NewFrameRequestN yields exactly a 4-byte big-endian body
that validates and reads back as n, and Validate flags exactly the
bodies whose length differs from 4. -/
theorem frameRequestN_encode_ok (sid n : Nat) (fl : List Nat)
    (hn : n < 2 ^ 32) (p : FrameRequestN) :
    (NewFrameRequestN sid n fl).body = putUint32BE n ∧
    (NewFrameRequestN sid n fl).body.length = 4 ∧
    (NewFrameRequestN sid n fl).Validate = none ∧
    (NewFrameRequestN sid n fl).N = n ∧
    (p.Validate = some errIncompleteFrame ↔ p.body.length ≠ 4) := by
  refine ⟨rfl, rfl, rfl, ?_, ?_⟩
  · show getUint32BE (putUint32BE n) = n
    simpa using getUint32BE_putUint32BE n [] hn
  · unfold FrameRequestN.Validate
    split <;> simp_all

/-- Witness for claim C6 at stream 2, value 7. -/
theorem frameRequestN_encode_ok_witness :
    (NewFrameRequestN 2 7 []).N = 7 :=
  (frameRequestN_encode_ok 2 7 [] (by decide) (NewFrameRequestN 2 7 [])).2.2.2.1

/-! ### Claim about the ERROR frame codec -/

/-- Claim C5: NewFrameError builds a body of the 4 big-endian code bytes
followed by data, which validates; ErrorCode and ErrorData read the
pieces back; Validate flags exactly the bodies shorter than 4 bytes. -/
theorem frameError_encode_ok (sid code : Nat) (data : List Nat)
    (hc : code < 2 ^ 32) (p : FrameError) :
    (NewFrameError sid code data).body = putUint32BE code ++ data ∧
    (NewFrameError sid code data).Validate = none ∧
    (NewFrameError sid code data).ErrorCode = code ∧
    (NewFrameError sid code data).ErrorData = data ∧
    (p.Validate = some errIncompleteFrame ↔ p.body.length < 4) := by
  refine ⟨rfl, ?_, ?_, rfl, ?_⟩
  · unfold FrameError.Validate NewFrameError
    rw [if_neg]
    simp [putUint32BE, minErrorFrameLen, errCodeLen]
  · exact getUint32BE_putUint32BE code data hc
  · unfold FrameError.Validate
    split <;> simp_all [minErrorFrameLen, errCodeLen]

/-- Witness for claim C5 at stream 4, code 0x201, data [1, 2]. -/
theorem frameError_encode_ok_witness :
    (NewFrameError 4 513 [1, 2]).ErrorCode = 513 :=
  (frameError_encode_ok 4 513 [1, 2] (by decide) (NewFrameError 4 513 [1, 2])).2.2.1

/-! ### Claim about the CANCEL frame -/

/-- Claim C7: a CANCEL frame is body-less; the write side emits exactly
the header (the written byte count equals Len, the header length), and
both cancel frame types validate exactly the nil-or-empty bodies,
answering errIncompleteFrame otherwise. -/
theorem cancel_empty_body (c : CancelFrameSupport) (f : CancelFrame)
    (g : FrameCancel) :
    c.WriteTo.length = c.Len ∧
    c.Len = FrameHeaderLen ∧
    (f.Validate = none ↔ (f.body = none ∨ f.body = some [])) ∧
    (f.Validate = none ∨ f.Validate = some errIncompleteFrame) ∧
    (g.Validate = none ↔ (g.body = none ∨ g.body = some [])) ∧
    (g.Validate = none ∨ g.Validate = some errIncompleteFrame) := by
  refine ⟨(writeBytes_length c.header).trans rfl, rfl, ?_, ?_, ?_, ?_⟩
  · rcases f with ⟨h, _ | b⟩
    · simp [CancelFrame.Validate]
    · cases b <;> simp [CancelFrame.Validate]
  · rcases f with ⟨h, _ | b⟩
    · simp [CancelFrame.Validate]
    · cases b <;> simp [CancelFrame.Validate]
  · rcases g with ⟨h, _ | b⟩
    · simp [FrameCancel.Validate]
    · cases b <;> simp [FrameCancel.Validate]
  · rcases g with ⟨h, _ | b⟩
    · simp [FrameCancel.Validate]
    · cases b <;> simp [FrameCancel.Validate]

/-- Witness for claim C7 on concrete cancel frames for stream 9. -/
theorem cancel_empty_body_witness :
    (NewCancelFrameSupport 9).WriteTo.length = (NewCancelFrameSupport 9).Len ∧
    (NewCancelFrame 9).Validate = none :=
  ⟨(cancel_empty_body (NewCancelFrameSupport 9) (NewCancelFrame 9)
      (NewFrameCancel 9)).1,
   ((cancel_empty_body (NewCancelFrameSupport 9) (NewCancelFrame 9)
      (NewFrameCancel 9)).2.2.1).2 (Or.inl rfl)⟩

/-! ### Claims about the dispatcher -/

/-- Claim C2 counterexample: dispatching a METADATA_PUSH frame with
stream id 7 returns before the deadline update, so conn.SetDeadline is
not called, refuting that the receive deadline is reset on every frame. -/
theorem dispatch_metadata_push_skips_deadline :
    (fullTransport.DispatchFrame mdPushFrame7).deadlineSet = false := rfl

/-- Claim C2 (amended): DispatchFrame calls conn.SetDeadline on every
invocation except the two early returns, METADATA_PUSH with nonzero
stream id and ERROR with stream id 0. -/
theorem dispatch_sets_deadline (p : Transport) (f : DFrame)
    (hmp : ¬(f.header.ftype = .MetadataPush ∧ f.header.streamID ≠ 0))
    (he : ¬(f.header.ftype = .Error ∧ f.header.streamID = 0)) :
    (p.DispatchFrame f).deadlineSet = true := by
  rcases f with ⟨⟨sid, t, fl⟩, ml, lp, es⟩
  cases t <;>
    simp_all [Transport.DispatchFrame, afterSwitch_deadlineSet]

/-- Witness for the amended claim C2 on a KEEPALIVE frame. -/
theorem dispatch_sets_deadline_witness :
    (nilTransport.DispatchFrame kaFrame).deadlineSet = true :=
  dispatch_sets_deadline nilTransport kaFrame (by decide) (by decide)

/-- Claim C3: a METADATA_PUSH frame with nonzero stream id is dropped:
DispatchFrame returns no error, invokes no handler, leaves the
transport untouched, and the read loop goes on with the next frame. -/
theorem metadata_push_nonzero_sid_dropped (p : Transport) (f : DFrame)
    (rest : List DFrame) (ht : f.header.ftype = .MetadataPush)
    (hs : f.header.streamID ≠ 0) :
    p.DispatchFrame f =
      { tp := p, err := none, deadlineSet := false
        handlerInvoked := false, disasterInvoked := false } ∧
    (readLoop p (f :: rest)).err = (readLoop p rest).err ∧
    (readLoop p (f :: rest)).dispatched = (readLoop p rest).dispatched + 1 := by
  have hd : p.DispatchFrame f =
      { tp := p, err := none, deadlineSet := false
        handlerInvoked := false, disasterInvoked := false } := by
    rcases f with ⟨⟨sid, t, fl⟩, ml, lp, es⟩
    simp only at ht hs
    subst ht
    simp [Transport.DispatchFrame, hs]
  refine ⟨hd, ?_, ?_⟩ <;> simp [readLoop, hd]

/-- Witness for claim C3 on a METADATA_PUSH frame with stream id 5
against a transport with all handlers registered. -/
theorem metadata_push_nonzero_sid_dropped_witness :
    fullTransport.DispatchFrame mdPushFrame =
      { tp := fullTransport, err := none, deadlineSet := false
        handlerInvoked := false, disasterInvoked := false } :=
  (metadata_push_nonzero_sid_dropped fullTransport mdPushFrame [] rfl
    (by decide)).1

/-- Claim C4 counterexample: a frame of unknown type with the IGNORE
flag bit set (0x200), arriving at a transport with no handler
registered, is not silently dropped: DispatchFrame returns an error and
the read loop stops after this single frame. -/
theorem ignore_flag_not_honored :
    (nilTransport.DispatchFrame ignoredExtFrame).err.isSome = true ∧
    (readLoop nilTransport [ignoredExtFrame, kaFrame]).dispatched = 1 := by
  exact ⟨rfl, rfl⟩

/-- Claim C4 (amended): whenever the selected handler slot is empty,
DispatchFrame returns an error and invokes no handler, regardless of
the IGNORE flag, and the read loop terminates on that frame (the two
early-return frame shapes aside). -/
theorem missing_handler_errors (p : Transport) (f : DFrame)
    (rest : List DFrame)
    (hmp : ¬(f.header.ftype = .MetadataPush ∧ f.header.streamID ≠ 0))
    (he : ¬(f.header.ftype = .Error ∧ f.header.streamID = 0))
    (hh : p.handlerFor f.header.ftype = none) :
    (p.DispatchFrame f).err.isSome = true ∧
    (p.DispatchFrame f).handlerInvoked = false ∧
    (readLoop p (f :: rest)).dispatched = 1 := by
  have hmain : (p.DispatchFrame f).err.isSome = true ∧
      (p.DispatchFrame f).handlerInvoked = false := by
    rcases f with ⟨⟨sid, t, fl⟩, ml, lp, es⟩
    simp only at hmp he
    simp only [Transport.handlerFor] at hh
    cases t <;>
      simp_all [Transport.DispatchFrame] <;>
      exact afterSwitch_missing _
  exact ⟨hmain.1, hmain.2, readLoop_stop p f rest hmain.1⟩

/-- Witness for the amended claim C4: a PAYLOAD frame with no payload
handler registered errors out and stops the loop. -/
theorem missing_handler_errors_witness :
    (nilTransport.DispatchFrame
      { header := { streamID := 3, ftype := .Payload, flags := 0 }
        maxLifetimeF := 0, lastRecvPosF := 0, errorStr := "" }).err.isSome
      = true :=
  (missing_handler_errors nilTransport
    { header := { streamID := 3, ftype := .Payload, flags := 0 }
      maxLifetimeF := 0, lastRecvPosF := 0, errorStr := "" }
    [] (by decide) (by decide) rfl).1

/-- Claim C8: an ERROR frame on stream 0 makes DispatchFrame return the
frame's error, run the disaster handler exactly when one is installed,
invoke no per-stream handler, and the Start loop stops at that frame
and the deferred close runs. -/
theorem error_sid0_disaster (p : Transport) (f : DFrame)
    (rest : List DFrame) (ht : f.header.ftype = .Error)
    (hs : f.header.streamID = 0) :
    (p.DispatchFrame f).err = some (GoErr.errMsg f.errorStr) ∧
    (p.DispatchFrame f).disasterInvoked = p.hError0.isSome ∧
    (p.DispatchFrame f).handlerInvoked = false ∧
    (readLoop p (f :: rest)).dispatched = 1 ∧
    (p.Start (f :: rest)).closed = true := by
  have hd : p.DispatchFrame f =
      { tp := p, err := some (GoErr.errMsg f.errorStr), deadlineSet := false
        handlerInvoked := false, disasterInvoked := p.hError0.isSome } := by
    rcases f with ⟨⟨sid, t, fl⟩, ml, lp, es⟩
    simp only at ht hs
    subst ht hs
    simp [Transport.DispatchFrame]
  refine ⟨by rw [hd], by rw [hd], by rw [hd], ?_, rfl⟩
  exact readLoop_stop p f rest (by rw [hd]; rfl)

/-- Witness for claim C8 on a stream-0 ERROR frame against a transport
with a disaster handler installed. -/
theorem error_sid0_disaster_witness :
    (fullTransport.DispatchFrame disasterFrame).err
        = some (GoErr.errMsg disasterFrame.errorStr) ∧
    (fullTransport.DispatchFrame disasterFrame).disasterInvoked
        = fullTransport.hError0.isSome ∧
    (readLoop fullTransport [disasterFrame, kaFrame]).dispatched = 1 :=
  ⟨(error_sid0_disaster fullTransport disasterFrame [kaFrame] rfl rfl).1,
   (error_sid0_disaster fullTransport disasterFrame [kaFrame] rfl rfl).2.1,
   (error_sid0_disaster fullTransport disasterFrame [kaFrame] rfl rfl).2.2.2.1⟩

/-- Claim C9: Transport.Close is once-guarded: across n calls the
underlying conn.Close runs min n 1 times; the first call fires the
guard and returns whatever conn.Close returns; any call once the guard
has fired changes nothing and returns nil. -/
theorem close_once_guarded (e : Option GoErr) (n : Nat) (s : CloseModel)
    (hs : s.onceDone = true) :
    (iterClose e n).connCloseCalls = min n 1 ∧
    transportClose e { onceDone := false, connCloseCalls := 0 } =
      ({ onceDone := true, connCloseCalls := 1 }, e) ∧
    transportClose e s = (s, none) := by
  refine ⟨?_, rfl, ?_⟩
  · rcases Nat.eq_zero_or_pos n with h | h
    · subst h; rfl
    · rw [iterClose_pos e n h]
      simp only
      omega
  · simp [transportClose, hs]

/-- Witness for claim C9: three Close calls yield a single conn.Close,
and a call after the guard has fired is a no-op returning nil. -/
theorem close_once_guarded_witness :
    (iterClose none 3).connCloseCalls = min 3 1 ∧
    transportClose none { onceDone := false, connCloseCalls := 0 } =
      ({ onceDone := true, connCloseCalls := 1 }, none) ∧
    transportClose none { onceDone := true, connCloseCalls := 1 } =
      ({ onceDone := true, connCloseCalls := 1 }, none) :=
  close_once_guarded none 3 { onceDone := true, connCloseCalls := 1 } rfl

/-- Claim C10: SetLifetime ignores any duration below 1, keeping the
transport unchanged, and installs any duration of at least 1 into
maxLifetime while touching no other field. -/
theorem setLifetime_cases (p : Transport) (d : Int) :
    (d < 1 → p.SetLifetime d = p) ∧
    (1 ≤ d → p.SetLifetime d = { p with maxLifetime := d }) := by
  refine ⟨fun h => ?_, fun h => ?_⟩
  · simp [Transport.SetLifetime, h]
  · unfold Transport.SetLifetime
    rw [if_neg (by omega)]

/-- Witness for claim C10 at durations -5 and 60. -/
theorem setLifetime_cases_witness :
    nilTransport.SetLifetime (-5) = nilTransport ∧
    nilTransport.SetLifetime 60 = { nilTransport with maxLifetime := 60 } :=
  ⟨(setLifetime_cases nilTransport (-5)).1 (by decide),
   (setLifetime_cases nilTransport 60).2 (by decide)⟩

end RSocketGo
